import Mathlib

/-!
Verification of the ctypes array-fill tutorial repository
(`src/ctypes_array_fill.ipynb`).

The repository contains two C routines,

  void fill_array(double *arr, size_t size) {
      for (size_t i = 0; i < size; ++i) arr[i] = (double)i;
  }

  void fill_array_2d(double *arr, size_t rows, size_t cols) {
      for (size_t i = 0; i < rows; ++i)
          for (size_t j = 0; j < cols; ++j)
              arr[i * cols + j] = (double)(i * cols + j);
  }

and two Python wrappers that coerce a NumPy input with
`np.ascontiguousarray(arr, dtype=np.float64)` and then call the C routine
with the buffer pointer and its dimensions.

Buffers of doubles are embedded as `List ℚ` (every finite IEEE-754 double
is a rational, and all values the routines write are integers).  The cast
`(double)i` of a `size_t` is embedded by `doubleOfNat`, the IEEE-754
round-to-nearest-even conversion of a nonnegative integer to binary64.
Each C loop is embedded as the list of (index, value) writes it performs,
in program order, applied in sequence to the buffer; an out-of-range
`List.set` leaves the list unchanged, so theorems about in-bounds writes
state their length preconditions explicitly.
-/

/-- IEEE-754 round-to-nearest-even conversion of a nonnegative integer to a
binary64 double, returned as the integer value the double holds.  Integers
up to `2^53` are exactly representable.  A larger `n` (no `size_t` value
reaches the binary64 overflow threshold `2^1024`) is rounded to the nearest
multiple of `2^(⌊log₂ n⌋ - 52)`, ties to the even quotient.  This embeds the
C cast `(double)i`. -/
def doubleOfNat (n : Nat) : Nat :=
  if n ≤ 2 ^ 53 then n
  else
    let e := n.log2 - 52
    let ulp := 2 ^ e
    let q := n / ulp
    let r := n % ulp
    if r * 2 < ulp then q * ulp
    else if ulp < r * 2 then (q + 1) * ulp
    else if q % 2 = 0 then q * ulp else (q + 1) * ulp

/-- The sequence of (index, value) writes performed by the loop of the C
routine `fill_array(arr, size)`: iteration `i` writes `(double)i` to slot
`i`, for `i = 0, 1, ..., size-1` in order. -/
def fillWrites (size : Nat) : List (Nat × ℚ) :=
  (List.range size).map (fun i => (i, (doubleOfNat i : ℚ)))

/-- The sequence of (index, value) writes performed by the nested loops of
the C routine `fill_array_2d(arr, rows, cols)`: iteration `(i, j)` writes
`(double)(i*cols+j)` to slot `i*cols+j`, rows outer, columns inner, both
ascending. -/
def fillWrites2d (rows cols : Nat) : List (Nat × ℚ) :=
  (List.range rows).flatMap
    (fun i => (List.range cols).map
      (fun j => (i * cols + j, (doubleOfNat (i * cols + j) : ℚ))))

/-- Apply a sequence of (index, value) writes to a buffer, in order. -/
def applyWrites (buf : List ℚ) (ws : List (Nat × ℚ)) : List ℚ :=
  ws.foldl (fun b w => b.set w.1 w.2) buf

/-- The C routine `fill_array(arr, size)`: its loop applied to the buffer. -/
def fill_array (arr : List ℚ) (size : Nat) : List ℚ :=
  applyWrites arr (fillWrites size)

/-- The C routine `fill_array_2d(arr, rows, cols)`: its nested loops applied
to the buffer. -/
def fill_array_2d (arr : List ℚ) (rows cols : Nat) : List ℚ :=
  applyWrites arr (fillWrites2d rows cols)

-- Basic lemmas about the write sequences.

theorem applyWrites_nil (buf : List ℚ) : applyWrites buf [] = buf := rfl

theorem applyWrites_append (buf : List ℚ) (ws₁ ws₂ : List (Nat × ℚ)) :
    applyWrites buf (ws₁ ++ ws₂) = applyWrites (applyWrites buf ws₁) ws₂ :=
  List.foldl_append _ _ _ _

theorem length_applyWrites (ws : List (Nat × ℚ)) (buf : List ℚ) :
    (applyWrites buf ws).length = buf.length := by
  induction ws generalizing buf with
  | nil => rfl
  | cons w ws ih =>
      simp [applyWrites, List.foldl_cons] at ih ⊢
      rw [ih, List.length_set]

theorem fillWrites_succ (n : Nat) :
    fillWrites (n + 1) = fillWrites n ++ [(n, (doubleOfNat n : ℚ))] := by
  simp [fillWrites, List.range_succ]

theorem fill_array_succ (arr : List ℚ) (n : Nat) :
    fill_array arr (n + 1) = (fill_array arr n).set n (doubleOfNat n : ℚ) := by
  rw [fill_array, fillWrites_succ, applyWrites_append]
  rfl

theorem length_fill_array (arr : List ℚ) (size : Nat) :
    (fill_array arr size).length = arr.length :=
  length_applyWrites _ _

/-- Characterization of the buffer after `fill_array`: in-range slots hold
the cast of their index, everything else is untouched. -/
theorem fill_array_getElem? (arr : List ℚ) (size i : Nat) :
    (fill_array arr size)[i]? =
      if i < size ∧ i < arr.length then some (doubleOfNat i : ℚ)
      else arr[i]? := by
  induction size with
  | zero => simp [fill_array, fillWrites, applyWrites]
  | succ n ih =>
      rw [fill_array_succ, List.getElem?_set]
      rcases Nat.lt_trichotomy i n with hlt | heq | hgt
      · rw [if_neg (by omega), ih]
        split_ifs <;> first | rfl | omega
      · subst heq
        rw [if_pos rfl, length_fill_array]
        by_cases hL : i < arr.length
        · simp [hL, Nat.lt_succ_self]
        · rw [if_neg hL, if_neg (by omega), List.getElem?_eq_none (by omega)]
      · rw [if_neg (by omega), ih]
        split_ifs <;> first | rfl | omega

theorem fillWrites_add (a b : Nat) :
    fillWrites (a + b) =
      fillWrites a ++
        (List.range b).map (fun j => (a + j, (doubleOfNat (a + j) : ℚ))) := by
  rw [fillWrites, List.range_add, List.map_append, List.map_map, ← fillWrites]
  rfl

/-- The 2-D write sequence is the 1-D write sequence for `rows * cols`
slots: the nested loops enumerate the same flat indices in the same order. -/
theorem fillWrites2d_eq (rows cols : Nat) :
    fillWrites2d rows cols = fillWrites (rows * cols) := by
  induction rows with
  | zero => simp [fillWrites2d, fillWrites]
  | succ r ih =>
      rw [fillWrites2d, List.range_succ, List.flatMap_append, ← fillWrites2d, ih]
      rw [Nat.succ_mul, fillWrites_add]
      simp [fillWrites2d]

/-!
The Python binding layer.  A NumPy array is embedded by its shape, its
C-contiguity flag, its dtype (the notebook only ever meets float64 and
integer dtypes), and the list of numeric values it holds in row-major
order, each value a rational (every finite double and every int64 is
rational).  `np.ascontiguousarray(arr, dtype=np.float64)` is
`np.array(arr, dtype=np.float64, copy=False, order='C', ndmin=1)`: it
promotes a 0-dimensional input to shape `(1,)` (its documentation notes it
"will not preserve 0-d arrays"), returns the input object itself when the
input is already C-contiguous float64 with `ndim ≥ 1`, returns a fresh 1-d
view sharing the caller's storage for a 0-d C-contiguous float64 input
(still no copy), and otherwise allocates a fresh contiguous float64 array
carrying the converted values.  The returned flag records whether the
buffer shares the caller's storage (`true` = no copy was made, the native
fill lands in the caller's storage).  The ctypes `ndpointer(dtype=float64,
ndim=1, flags=C_CONTIGUOUS)` argument check (resp. the `rows, cols =
arr.shape` unpacking) rejects a buffer whose dimensionality is not 1
(resp. 2) before the native routine runs; the spec names this failure
`ShapeMismatchError`.  An input that NumPy cannot coerce to a numeric array
makes the coercion itself raise; the spec names that `TypeConversionError`.
-/

/-- NumPy dtypes occurring in the notebook: `float64`, or an integer dtype. -/
inductive NpDType where
  | float64 : NpDType
  | int64 : NpDType
deriving DecidableEq, Repr

/-- A NumPy array: shape, C-contiguity, dtype, and its row-major values. -/
structure NdArray where
  shape : List Nat
  contiguous : Bool
  dtype : NpDType
  data : List ℚ
deriving DecidableEq, Repr

/-- IEEE-754 round-to-nearest-even conversion of an `int64` value to
binary64, returned as the integer the double holds (conversion by sign and
magnitude via `doubleOfNat`). -/
def doubleOfInt (z : Int) : Int :=
  if 0 ≤ z then (doubleOfNat z.toNat : Int) else -(doubleOfNat (-z).toNat : Int)

/-- Element conversion performed when `ascontiguousarray` changes an integer
dtype to float64: an integer value is rounded to the nearest double; a
non-integer rational models a value that is already a finite double and is
carried unchanged. -/
def convertValToF64 (q : ℚ) : ℚ :=
  if q.den = 1 then ((doubleOfInt q.num : Int) : ℚ) else q

/-- The `ndmin=1` shape promotion performed by `np.ascontiguousarray`: a
0-dimensional shape becomes `(1,)`; any other shape is preserved.  (A 0-d
array holds exactly one element, so the data is unchanged.) -/
def ndminOneShape (s : List Nat) : List Nat :=
  if s = [] then [1] else s

/-- `np.ascontiguousarray(a, dtype=np.float64)`, i.e.
`np.array(a, dtype=np.float64, copy=False, order='C', ndmin=1)`: if `a` is
already C-contiguous with dtype float64, no copy is made (flag `true`) and
the returned buffer is `a` itself when `ndim ≥ 1`, or a shape-`(1,)` view
of `a`'s single-element storage when `a` is 0-dimensional; otherwise a
fresh contiguous float64 array with the converted values and the promoted
shape is returned (flag `false`). -/
def ascontiguousarrayF64 (a : NdArray) : NdArray × Bool :=
  if a.contiguous = true ∧ a.dtype = NpDType.float64 then
    ({ a with shape := ndminOneShape a.shape }, true)
  else
    ({ shape := ndminOneShape a.shape, contiguous := true,
       dtype := NpDType.float64,
       data := if a.dtype = NpDType.float64 then a.data
               else a.data.map convertValToF64 },
     false)

/-- An argument passed to a wrapper: either something NumPy can coerce to a
numeric array, or an input it cannot interpret as numeric. -/
inductive PyInput where
  | array : NdArray → PyInput
  | nonNumeric : PyInput
deriving DecidableEq, Repr

/-- The error taxonomy of the spec for the wrapper calls. -/
inductive PyError where
  | typeConversionError : PyError
  | shapeMismatchError : PyError
deriving DecidableEq, Repr

/-- Outcome of a successful wrapper call: the caller's original array as it
stands after the call (its storage reflects the fill exactly when the
coercion made no copy), the coerced buffer (the one the native routine
filled) after the call, and whether that buffer shares the caller's
storage (no copy was made). -/
structure FillOutcome where
  caller : NdArray
  buffer : NdArray
  aliased : Bool
deriving DecidableEq, Repr

/-- The Python wrapper `fill_array(arr)`:
`arr = np.ascontiguousarray(arr, dtype=np.float64); size = arr.size;
lib.fill_array(arr, size)`.  A non-numeric input fails in the coercion
(`TypeConversionError`); a coerced buffer that is not 1-dimensional is
rejected by the `ndpointer(ndim=1)` argument check before the native call
(`ShapeMismatchError`) — note a 0-dimensional input was already promoted
to shape `(1,)` by the coercion and therefore passes the check; otherwise
the native routine fills the buffer (`arr.size` is the product of the
shape).  When no copy was made the caller's storage holds the fill values
(the caller's array keeps its own shape); otherwise it is untouched. -/
def fill_array_py (x : PyInput) : Except PyError FillOutcome :=
  match x with
  | PyInput.nonNumeric => Except.error PyError.typeConversionError
  | PyInput.array a =>
      let p := ascontiguousarrayF64 a
      if p.1.shape.length = 1 then
        let filled := { p.1 with data := fill_array p.1.data p.1.shape.prod }
        Except.ok { caller := if p.2 then { a with data := filled.data } else a,
                    buffer := filled, aliased := p.2 }
      else Except.error PyError.shapeMismatchError

/-- The Python wrapper `fill_array_2d(arr)`:
`arr = np.ascontiguousarray(arr, dtype=np.float64); rows, cols = arr.shape;
lib2d.fill_array_2d(arr, rows, cols)`.  A non-numeric input fails in the
coercion; the `rows, cols = arr.shape` unpacking (and the
`ndpointer(ndim=2)` check) rejects a buffer that is not 2-dimensional
before the native call. -/
def fill_array_2d_py (x : PyInput) : Except PyError FillOutcome :=
  match x with
  | PyInput.nonNumeric => Except.error PyError.typeConversionError
  | PyInput.array a =>
      let p := ascontiguousarrayF64 a
      match p.1.shape with
      | [rows, cols] =>
          let filled := { p.1 with data := fill_array_2d p.1.data rows cols }
          Except.ok { caller := if p.2 then { a with data := filled.data } else a,
                      buffer := filled, aliased := p.2 }
      | _ => Except.error PyError.shapeMismatchError

-- Shared helper lemmas.

theorem fill2d_eq_fill (arr : List ℚ) (rows cols : Nat) :
    fill_array_2d arr rows cols = fill_array arr (rows * cols) := by
  rw [fill_array_2d, fillWrites2d_eq]
  rfl

theorem shape_ascontiguousarrayF64 (a : NdArray) :
    (ascontiguousarrayF64 a).1.shape = ndminOneShape a.shape := by
  rw [ascontiguousarrayF64]
  split_ifs <;> rfl

theorem ascontiguousarrayF64_of_ne_nil (a : NdArray) (h : a.shape ≠ []) :
    ascontiguousarrayF64 a =
      if a.contiguous = true ∧ a.dtype = NpDType.float64 then (a, true)
      else
        ({ shape := a.shape, contiguous := true, dtype := NpDType.float64,
           data := if a.dtype = NpDType.float64 then a.data
                   else a.data.map convertValToF64 },
         false) := by
  rw [ascontiguousarrayF64]
  simp only [ndminOneShape, if_neg h]

theorem fill_fill (arr : List ℚ) (n : Nat) :
    fill_array (fill_array arr n) n = fill_array arr n := by
  apply List.ext_getElem?
  intro i
  rw [fill_array_getElem?, length_fill_array, fill_array_getElem?]
  split_ifs <;> rfl

theorem fill_congr_length (a b : List ℚ) (h : a.length = b.length) :
    fill_array a a.length = fill_array b b.length := by
  apply List.ext_getElem?
  intro i
  rw [fill_array_getElem?, fill_array_getElem?, h]
  split_ifs with hc
  · rfl
  · rw [List.getElem?_eq_none (by omega), List.getElem?_eq_none (by omega)]

theorem doubleOfNat_of_le (k : Nat) (h : k ≤ 2 ^ 53) : doubleOfNat k = k := by
  rw [doubleOfNat, if_pos h]

/-- C1: for every `n ≥ 0`, after `fill_array` on a length-`n` buffer of
doubles, slot `i` holds the double cast of `i` for every `i < n`. -/
theorem fill_array_fills_each_slot (n : Nat) (arr : List ℚ) (h : arr.length = n)
    (i : Nat) (hi : i < n) :
    (fill_array arr n)[i]? = some ((doubleOfNat i : ℚ)) := by
  rw [fill_array_getElem?, if_pos ⟨hi, by omega⟩]

/-- Witness for C1 at `n = 4`, `arr = [0,0,0,0]`, `i = 2`. -/
theorem fill_array_fills_each_slot_witness :
    (fill_array [(0 : ℚ), 0, 0, 0] 4)[2]? = some ((doubleOfNat 2 : ℚ)) :=
  fill_array_fills_each_slot 4 [0, 0, 0, 0] rfl 2 (by decide)

/-- C2: for every `rows, cols ≥ 0`, after `fill_array_2d` on a row-major
`rows × cols` buffer, the element at row `i`, column `j` (flat slot
`i*cols+j`) holds the double cast of `i*cols+j` for all valid `(i, j)`. -/
theorem fill_array_2d_fills_each_slot (rows cols : Nat) (arr : List ℚ)
    (h : arr.length = rows * cols) (i j : Nat) (hi : i < rows) (hj : j < cols) :
    (fill_array_2d arr rows cols)[i * cols + j]? =
      some ((doubleOfNat (i * cols + j) : ℚ)) := by
  have hidx : i * cols + j < rows * cols := by
    have h1 : i * cols + j < (i + 1) * cols := by
      rw [Nat.succ_mul]
      omega
    have h2 : (i + 1) * cols ≤ rows * cols := Nat.mul_le_mul_right _ hi
    omega
  rw [fill2d_eq_fill, fill_array_getElem?, if_pos ⟨hidx, by omega⟩]

/-- Witness for C2 at `rows = 2`, `cols = 3`, `arr` of length 6,
`(i, j) = (1, 2)`. -/
theorem fill_array_2d_fills_each_slot_witness :
    (fill_array_2d [(0 : ℚ), 0, 0, 0, 0, 0] 2 3)[1 * 3 + 2]? =
      some ((doubleOfNat (1 * 3 + 2) : ℚ)) :=
  fill_array_2d_fills_each_slot 2 3 [0, 0, 0, 0, 0, 0] rfl 1 2 (by decide)
    (by decide)

/-- C3: the 2-D fill routine on a `rows × cols` row-major buffer produces
exactly the same buffer as the 1-D fill routine on the same flat buffer
with `n = rows * cols`: the nested loops perform the identical sequence of
writes. -/
theorem fill_array_2d_refines_fill_array :
    ∀ (arr : List ℚ) (rows cols : Nat),
      fill_array_2d arr rows cols = fill_array arr (rows * cols) :=
  fun arr rows cols => fill2d_eq_fill arr rows cols

/-- C6: filling is idempotent, in 1-D and in 2-D: a second fill overwrites
every slot with the value it already holds. -/
theorem fill_idempotent :
    (∀ (arr : List ℚ) (n : Nat),
      fill_array (fill_array arr n) n = fill_array arr n) ∧
    (∀ (arr : List ℚ) (rows cols : Nat),
      fill_array_2d (fill_array_2d arr rows cols) rows cols =
        fill_array_2d arr rows cols) := by
  refine ⟨fun arr n => fill_fill arr n, fun arr rows cols => ?_⟩
  rw [fill2d_eq_fill, fill2d_eq_fill]
  exact fill_fill arr (rows * cols)

/-- C9: every write the 1-D loop performs has index below `size`, and every
write the 2-D loops perform has index below `rows * cols`; so when the size
arguments equal the buffer's true length, no write is out of bounds. -/
theorem fill_writes_in_bounds :
    (∀ (size : Nat) (arr : List ℚ), arr.length = size →
      ∀ w ∈ fillWrites size, w.1 < arr.length) ∧
    (∀ (rows cols : Nat) (arr : List ℚ), arr.length = rows * cols →
      ∀ w ∈ fillWrites2d rows cols, w.1 < arr.length) := by
  constructor
  · intro size arr h w hw
    rw [fillWrites] at hw
    obtain ⟨i, hi, rfl⟩ := List.mem_map.mp hw
    have := List.mem_range.mp hi
    omega
  · intro rows cols arr h w hw
    rw [fillWrites2d_eq, fillWrites] at hw
    obtain ⟨i, hi, rfl⟩ := List.mem_map.mp hw
    have := List.mem_range.mp hi
    omega

/-- Witness for C9: the write `(1, 1.0)` of `fillWrites 3` and the write
`(3, 3.0)` of `fillWrites2d 2 2` are in bounds for buffers of matching
length. -/
theorem fill_writes_in_bounds_witness :
    ((1, (doubleOfNat 1 : ℚ)) : Nat × ℚ).1 < [(0 : ℚ), 0, 0].length ∧
    ((3, (doubleOfNat 3 : ℚ)) : Nat × ℚ).1 < [(0 : ℚ), 0, 0, 0].length :=
  ⟨fill_writes_in_bounds.1 3 [0, 0, 0] rfl (1, (doubleOfNat 1 : ℚ))
      (by decide),
   fill_writes_in_bounds.2 2 2 [0, 0, 0, 0] rfl (3, (doubleOfNat 3 : ℚ))
      (by decide)⟩

/-- C10: the filled contents depend only on the buffer's shape, never on its
prior contents: two same-length (resp. same-shape) buffers fill to
identical contents. -/
theorem fill_result_determined_by_shape :
    (∀ (a b : List ℚ), a.length = b.length →
      fill_array a a.length = fill_array b b.length) ∧
    (∀ (rows cols : Nat) (a b : List ℚ), a.length = rows * cols →
      b.length = rows * cols →
      fill_array_2d a rows cols = fill_array_2d b rows cols) := by
  refine ⟨fun a b h => fill_congr_length a b h, ?_⟩
  intro rows cols a b ha hb
  rw [fill2d_eq_fill, fill2d_eq_fill, ← ha]
  have := fill_congr_length a b (by omega)
  rw [ha] at this
  rw [← ha] at this
  exact this.trans (by rw [hb, ha])

/-- Witness for C10 at two different length-2 buffers and two different
`2 × 1` buffers. -/
theorem fill_result_determined_by_shape_witness :
    fill_array [(5 : ℚ), 7] 2 = fill_array [(1 : ℚ), 2] 2 ∧
    fill_array_2d [(5 : ℚ), 7] 2 1 = fill_array_2d [(1 : ℚ), 2] 2 1 :=
  ⟨fill_result_determined_by_shape.1 [5, 7] [1, 2] rfl,
   fill_result_determined_by_shape.2 2 1 [5, 7] [1, 2] rfl rfl⟩

-- Concrete example arrays used by witnesses.

/-- A C-contiguous float64 array of shape `[2]`. -/
def exArrContig : NdArray := ⟨[2], true, NpDType.float64, [5, 7]⟩

/-- A non-contiguous int64 array of shape `[2]` (e.g. a reversed view of an
integer array). -/
def exArrStrided : NdArray := ⟨[2], false, NpDType.int64, [5, 7]⟩

/-- C4: when the input is already contiguous float64, the coercion returns
the caller's own array (no copy) and the native call fills the caller's
storage; otherwise the coercion allocates a fresh contiguous float64
buffer, only that buffer is filled, and the caller's array is returned
untouched.  Stated for the 1-D wrapper on any 1-dimensional input and for
the 2-D wrapper on any 2-dimensional input. -/
theorem wrapper_copy_mutation_semantics (a : NdArray) :
    (a.shape.length = 1 →
      (a.contiguous = true ∧ a.dtype = NpDType.float64 →
        fill_array_py (PyInput.array a) =
          Except.ok { caller := { a with data := fill_array a.data a.shape.prod },
                      buffer := { a with data := fill_array a.data a.shape.prod },
                      aliased := true }) ∧
      (¬(a.contiguous = true ∧ a.dtype = NpDType.float64) →
        fill_array_py (PyInput.array a) =
          Except.ok
            { caller := a,
              buffer := { shape := a.shape, contiguous := true,
                          dtype := NpDType.float64,
                          data := fill_array
                            (if a.dtype = NpDType.float64 then a.data
                             else a.data.map convertValToF64) a.shape.prod },
              aliased := false })) ∧
    (∀ rows cols : Nat, a.shape = [rows, cols] →
      (a.contiguous = true ∧ a.dtype = NpDType.float64 →
        fill_array_2d_py (PyInput.array a) =
          Except.ok { caller := { a with data := fill_array_2d a.data rows cols },
                      buffer := { a with data := fill_array_2d a.data rows cols },
                      aliased := true }) ∧
      (¬(a.contiguous = true ∧ a.dtype = NpDType.float64) →
        fill_array_2d_py (PyInput.array a) =
          Except.ok
            { caller := a,
              buffer := { shape := a.shape, contiguous := true,
                          dtype := NpDType.float64,
                          data := fill_array_2d
                            (if a.dtype = NpDType.float64 then a.data
                             else a.data.map convertValToF64) rows cols },
              aliased := false })) := by
  constructor
  · intro h1
    have hne : a.shape ≠ [] := by
      intro hemp
      rw [hemp] at h1
      exact absurd h1 (by decide)
    constructor
    · intro hc
      simp only [fill_array_py, ascontiguousarrayF64_of_ne_nil a hne,
        if_pos hc, h1, if_pos rfl]
      rfl
    · intro hc
      simp only [fill_array_py, ascontiguousarrayF64_of_ne_nil a hne,
        if_neg hc, h1, if_pos rfl]
      rfl
  · intro rows cols h2
    have hne : a.shape ≠ [] := by
      rw [h2]
      exact fun hemp => List.noConfusion hemp
    constructor
    · intro hc
      simp only [fill_array_2d_py, ascontiguousarrayF64_of_ne_nil a hne,
        if_pos hc, h2]
      rfl
    · intro hc
      simp only [fill_array_2d_py, ascontiguousarrayF64_of_ne_nil a hne,
        if_neg hc, h2]
      rfl

/-- Witness for C4: the contiguous float64 array `exArrContig` is filled in
place (no copy); the strided int64 array `exArrStrided` is untouched and a
fresh buffer receives the fill. -/
theorem wrapper_copy_mutation_semantics_witness :
    fill_array_py (PyInput.array exArrContig) =
      Except.ok { caller := { exArrContig with
                              data := fill_array exArrContig.data
                                exArrContig.shape.prod },
                  buffer := { exArrContig with
                              data := fill_array exArrContig.data
                                exArrContig.shape.prod },
                  aliased := true } ∧
    fill_array_py (PyInput.array exArrStrided) =
      Except.ok
        { caller := exArrStrided,
          buffer := { shape := exArrStrided.shape, contiguous := true,
                      dtype := NpDType.float64,
                      data := fill_array
                        (if exArrStrided.dtype = NpDType.float64 then
                          exArrStrided.data
                         else exArrStrided.data.map convertValToF64)
                        exArrStrided.shape.prod },
          aliased := false } :=
  ⟨((wrapper_copy_mutation_semantics exArrContig).1 rfl).1 ⟨rfl, rfl⟩,
   ((wrapper_copy_mutation_semantics exArrStrided).1 rfl).2 (by decide)⟩

/-- Counterexample to C5 as stated: a 0-dimensional input to the 1-D
wrapper does not fail with `ShapeMismatchError`.  The coercion's `ndmin=1`
promotion turns the 0-d contiguous float64 array holding `5.0` into a
shape-`(1,)` buffer sharing its storage; that buffer passes the
`ndpointer(ndim=1)` check and the fill succeeds, storing `0.0`. -/
theorem wrapper_zero_dim_input_fills :
    fill_array_py (PyInput.array ⟨[], true, NpDType.float64, [5]⟩) =
      Except.ok ⟨⟨[], true, NpDType.float64, [0]⟩,
                 ⟨[1], true, NpDType.float64, [0]⟩, true⟩ ∧
    fill_array_py (PyInput.array ⟨[], true, NpDType.float64, [5]⟩) ≠
      Except.error PyError.shapeMismatchError := by
  have h1 : fill_array_py (PyInput.array ⟨[], true, NpDType.float64, [5]⟩) =
      Except.ok ⟨⟨[], true, NpDType.float64, [0]⟩,
                 ⟨[1], true, NpDType.float64, [0]⟩, true⟩ := rfl
  exact ⟨h1, fun hcontra => Except.noConfusion (h1.symm.trans hcontra)⟩

/-- C5 (amended): a non-numeric input fails with `TypeConversionError` in
either wrapper.  Dimensionality mismatches fail with `ShapeMismatchError`,
with one exception forced by the coercion's `ndmin=1` promotion: the 1-D
wrapper rejects every input of two or more dimensions, but a 0-dimensional
input is promoted to shape `(1,)` and fills without error; the 2-D wrapper
rejects every input whose dimensionality is not 2 (a 0-d input is promoted
to 1-d, which still mismatches). -/
theorem wrapper_error_taxonomy :
    (fill_array_py PyInput.nonNumeric =
      Except.error PyError.typeConversionError) ∧
    (fill_array_2d_py PyInput.nonNumeric =
      Except.error PyError.typeConversionError) ∧
    (∀ a : NdArray, 2 ≤ a.shape.length →
      fill_array_py (PyInput.array a) =
        Except.error PyError.shapeMismatchError) ∧
    (∀ a : NdArray, a.shape = [] → ∀ e : PyError,
      fill_array_py (PyInput.array a) ≠ Except.error e) ∧
    (∀ a : NdArray, a.shape.length ≠ 2 →
      fill_array_2d_py (PyInput.array a) =
        Except.error PyError.shapeMismatchError) := by
  refine ⟨rfl, rfl, ?_, ?_, ?_⟩
  · intro a h
    have hne : a.shape ≠ [] := by
      intro hemp
      rw [hemp] at h
      exact absurd h (by decide)
    have hs : (ascontiguousarrayF64 a).1.shape.length ≠ 1 := by
      rw [shape_ascontiguousarrayF64]
      simp only [ndminOneShape, if_neg hne]
      omega
    simp only [fill_array_py, if_neg hs]
  · intro a h e
    have hs : (ascontiguousarrayF64 a).1.shape.length = 1 := by
      rw [shape_ascontiguousarrayF64, h]
      rfl
    simp only [fill_array_py, if_pos hs]
    exact fun hcontra => Except.noConfusion hcontra
  · intro a h
    simp only [fill_array_2d_py]
    split
    · rename_i rows cols heq
      exfalso
      have h2 : ndminOneShape a.shape = [rows, cols] :=
        (shape_ascontiguousarrayF64 a).symm.trans heq
      rw [ndminOneShape] at h2
      split_ifs at h2 with hemp
      · simp at h2
      · apply h
        rw [h2]
        rfl
    · rfl

/-- Witness for C5: a `2 × 2` input to the 1-D wrapper errors with
`ShapeMismatchError`, a 0-d int64 input to the 1-D wrapper does not, and a
length-3 1-D input to the 2-D wrapper errors with `ShapeMismatchError`. -/
theorem wrapper_error_taxonomy_witness :
    fill_array_py
        (PyInput.array ⟨[2, 2], true, NpDType.float64, [0, 0, 0, 0]⟩) =
      Except.error PyError.shapeMismatchError ∧
    fill_array_py (PyInput.array ⟨[], false, NpDType.int64, [7]⟩) ≠
      Except.error PyError.shapeMismatchError ∧
    fill_array_2d_py (PyInput.array ⟨[3], true, NpDType.float64, [0, 0, 0]⟩) =
      Except.error PyError.shapeMismatchError :=
  ⟨wrapper_error_taxonomy.2.2.1 ⟨[2, 2], true, NpDType.float64, [0, 0, 0, 0]⟩
      (by decide),
   wrapper_error_taxonomy.2.2.2.1 ⟨[], false, NpDType.int64, [7]⟩ rfl
      PyError.shapeMismatchError,
   wrapper_error_taxonomy.2.2.2.2 ⟨[3], true, NpDType.float64, [0, 0, 0]⟩
      (by decide)⟩

/-- C7: a zero-sized buffer is a no-op: the 1-D loop with `size = 0` and the
2-D loops with zero rows or zero columns perform an empty write sequence
and leave the buffer unchanged, and the wrappers raise no error on
degenerate empty arrays. -/
theorem fill_zero_size_noop :
    (∀ arr : List ℚ, fill_array arr 0 = arr) ∧
    (fillWrites 0 = []) ∧
    (∀ (arr : List ℚ) (rows cols : Nat), rows = 0 ∨ cols = 0 →
      fill_array_2d arr rows cols = arr ∧ fillWrites2d rows cols = []) ∧
    (∀ a : NdArray, a.shape = [0] → ∀ e : PyError,
      fill_array_py (PyInput.array a) ≠ Except.error e) ∧
    (∀ (a : NdArray) (rows cols : Nat), a.shape = [rows, cols] →
      rows = 0 ∨ cols = 0 → ∀ e : PyError,
      fill_array_2d_py (PyInput.array a) ≠ Except.error e) := by
  refine ⟨fun arr => rfl, rfl, ?_, ?_, ?_⟩
  · intro arr rows cols h
    rcases h with h0 | h0 <;> subst h0
    · exact ⟨rfl, rfl⟩
    · constructor
      · rw [fill2d_eq_fill, Nat.mul_zero]
        rfl
      · rw [fillWrites2d_eq, Nat.mul_zero]
        rfl
  · intro a h e
    have hs : (ascontiguousarrayF64 a).1.shape.length = 1 := by
      rw [shape_ascontiguousarrayF64, h]
      rfl
    simp only [fill_array_py, if_pos hs]
    exact fun hcontra => Except.noConfusion hcontra
  · intro a rows cols h hzero e
    have hs : (ascontiguousarrayF64 a).1.shape = [rows, cols] := by
      rw [shape_ascontiguousarrayF64, h]
      simp [ndminOneShape]
    simp only [fill_array_2d_py, hs]
    exact fun hcontra => Except.noConfusion hcontra

/-- Witness for C7: a `0 × 5` fill is a no-op with an empty write list, and
the wrappers accept a length-0 array and a `0 × 3` array without error. -/
theorem fill_zero_size_noop_witness :
    (fill_array_2d [(4 : ℚ), 4] 0 5 = [(4 : ℚ), 4] ∧ fillWrites2d 0 5 = []) ∧
    fill_array_py (PyInput.array ⟨[0], true, NpDType.float64, []⟩) ≠
      Except.error PyError.shapeMismatchError ∧
    fill_array_2d_py (PyInput.array ⟨[0, 3], true, NpDType.float64, []⟩) ≠
      Except.error PyError.shapeMismatchError :=
  ⟨fill_zero_size_noop.2.2.1 [4, 4] 0 5 (Or.inl rfl),
   fill_zero_size_noop.2.2.2.1 ⟨[0], true, NpDType.float64, []⟩ rfl
      PyError.shapeMismatchError,
   fill_zero_size_noop.2.2.2.2 ⟨[0, 3], true, NpDType.float64, []⟩ 0 3 rfl
      (Or.inl rfl) PyError.shapeMismatchError⟩

-- The rounding behaviour of the cast at the first non-representable integer.

theorem doubleOfNat_pow53_succ : doubleOfNat (2 ^ 53 + 1) = 2 ^ 53 := by
  have hlog : (2 ^ 53 + 1 : Nat).log2 = 53 := by
    rw [Nat.log2_eq_log_two]
    exact Nat.log_eq_of_pow_le_of_lt_pow (by norm_num) (by norm_num)
  unfold doubleOfNat
  rw [if_neg (by norm_num)]
  simp only [hlog]
  norm_num

/-- Counterexample to C8 as stated: on a buffer of `2^53 + 2` doubles the
loop reaches flat index `2^53 + 1`, whose cast to double rounds to `2^53`,
so the stored value does not equal the index. -/
theorem fill_value_inexact_at_huge_index :
    (fill_array (List.replicate (2 ^ 53 + 2) (0 : ℚ))
        (2 ^ 53 + 2))[2 ^ 53 + 1]? ≠
      some ((2 ^ 53 + 1 : ℚ)) := by
  rw [fill_array_getElem?,
    if_pos ⟨by omega, by rw [List.length_replicate]; omega⟩]
  intro hcontra
  have h1 : ((doubleOfNat (2 ^ 53 + 1) : Nat) : ℚ) = (2 ^ 53 + 1 : ℚ) :=
    Option.some.inj hcontra
  rw [doubleOfNat_pow53_succ] at h1
  push_cast at h1
  norm_num at h1

/-- C8 (amended): an integer-typed input array is converted to
double-precision by the coercion before filling, and the double stored at
flat index `k` equals the integer `k` exactly for every index
`k ≤ 2^53` — every such integer is exactly representable in binary64.
(Beyond `2^53` the cast rounds; see the counterexample.) -/
theorem wrapper_converts_dtype_and_fill_exact :
    (∀ a : NdArray, a.dtype = NpDType.int64 →
      (ascontiguousarrayF64 a).1.dtype = NpDType.float64) ∧
    (∀ (n : Nat) (arr : List ℚ) (k : Nat), arr.length = n → k < n →
      k ≤ 2 ^ 53 → (fill_array arr n)[k]? = some ((k : ℚ))) := by
  constructor
  · intro a h
    rw [ascontiguousarrayF64]
    split_ifs with hc h2
    · rw [h] at hc
      exact absurd hc.2 (by decide)
    · rfl
    · rfl
  · intro n arr k hlen hk hrep
    rw [fill_array_getElem?, if_pos ⟨hk, by omega⟩, doubleOfNat_of_le k hrep]

/-- Witness for the amended C8: an int64 array is coerced to float64, and in
a length-3 fill the slot at index 1 holds exactly 1. -/
theorem wrapper_converts_dtype_and_fill_exact_witness :
    (ascontiguousarrayF64 ⟨[1], true, NpDType.int64, [4]⟩).1.dtype =
      NpDType.float64 ∧
    (fill_array [(9 : ℚ), 9, 9] 3)[1]? = some (((1 : Nat) : ℚ)) :=
  ⟨wrapper_converts_dtype_and_fill_exact.1 ⟨[1], true, NpDType.int64, [4]⟩ rfl,
   wrapper_converts_dtype_and_fill_exact.2 3 [9, 9, 9] 1 rfl (by norm_num)
      (by norm_num)⟩
